import Mathlib

/-!
Shallow embedding of `src/userdata.rs` (mlua): the `MetaMethod` operator
catalog, the `AnyUserData` runtime handle with its `is` / `borrow` /
`borrow_mut` / `equals` / user-value operations, and the dynamic borrow
cell wrapping each userdata instance.

Engine-side objects are modelled by natural-number references:
a handle names the Lua value it refers to (so handle equality is the
reference identity that `AnyUserData::eq` / `lua_rawequal` implement),
and a metatable is named by its registry reference.
-/

namespace Mlua

/-- The error kinds of `crate::error::Error` that this layer produces
(`UserDataTypeMismatch`, `UserDataBorrowError`, `UserDataBorrowMutError`)
plus the conversion-failure kind that `Table::from_lua` can raise. -/
inductive Error where
  | userDataTypeMismatch
  | userDataBorrowError
  | userDataBorrowMutError
  | fromLuaConversionError
  deriving DecidableEq, Repr

/-- Borrow state of the `RefCell` wrapping one userdata instance:
no borrow, `n` live shared borrows, or one exclusive borrow. -/
inductive BorrowFlag where
  | free
  | shared (n : Nat)
  | exclusive
  deriving DecidableEq, Repr

/-- Modelled from the spec: `RefCell::try_borrow` (std, not in src/).
Per the state machine of the spec, shared-acquire succeeds from
`Free` or `Shared(n)` and fails from `Exclusive` without mutating state. -/
def tryBorrow : BorrowFlag → Option BorrowFlag
  | .free => some (.shared 1)
  | .shared n => some (.shared (n + 1))
  | .exclusive => none

/-- Modelled from the spec: `RefCell::try_borrow_mut` (std, not in src/).
Exclusive-acquire succeeds only from `Free` and otherwise fails without
mutating state. -/
def tryBorrowMut : BorrowFlag → Option BorrowFlag
  | .free => some .exclusive
  | _ => none

/-- Modelled from the spec: dropping a shared view (`Ref`) takes
`Shared(n)` to `Shared(n-1)`, or to `Free` when the last shared borrow
is released. With no shared borrow live there is nothing to release. -/
def sharedRelease : BorrowFlag → BorrowFlag
  | .shared (n + 2) => .shared (n + 1)
  | .shared _ => .free
  | f => f

/-- Modelled from the spec: dropping an exclusive view (`RefMut`) takes
`Exclusive` back to `Free`. -/
def exclusiveRelease : BorrowFlag → BorrowFlag
  | .exclusive => .free
  | f => f

/-- The engine state visible to this layer. `metatableOf` is the
per-value metatable slot read by `lua_getmetatable` (`none` when the
value has no metatable). `typeTag` is the per-type registry reference
returned by `lua.userdata_metatable::<T>()`; modelled from the spec
(that function lives in `lua.rs`, not in src/): the cache is created
lazily and exactly once per type and lookups idempotently return the
cached tag, so the lookup is total. `borrowFlag` is the borrow state of
the cell wrapping each value. `eqEntry` gives, per metatable, the
`__eq` metamethod closure when one is declared: it receives the two
handles and yields the `Result<bool>` of the call. -/
structure LuaState where
  metatableOf : Nat → Option Nat
  typeTag : Nat → Nat
  borrowFlag : Nat → BorrowFlag
  eqEntry : Nat → Option (Nat → Nat → Except Error Bool)

/-- Replace the borrow flag of the cell wrapping value `h`. -/
def setFlag (st : LuaState) (h : Nat) (f : BorrowFlag) : LuaState :=
  { st with borrowFlag := fun x => if x = h then f else st.borrowFlag x }

/-- `AnyUserData::inspect`: checks that the handle has a metatable at all
(`UserDataTypeMismatch` if not), fetches the registered metatable of the
target type `T`, compares the two by raw identity (`lua_rawequal`,
`UserDataTypeMismatch` if different), and on success hands the wrapped
cell to the caller-supplied closure. The closure acts on the cell of the
inspected value through interior mutability, so here it is a transformer
of that cell's borrow flag returning the flag after the call together
with the error, if any, that it reports. -/
def inspect (st : LuaState) (h T : Nat)
    (func : BorrowFlag → BorrowFlag × Option Error) : LuaState × Option Error :=
  match st.metatableOf h with
  | none => (st, some Error.userDataTypeMismatch)
  | some mt =>
    if mt = st.typeTag T then
      let r := func (st.borrowFlag h)
      (setFlag st h r.1, r.2)
    else (st, some Error.userDataTypeMismatch)

/-- `AnyUserData::is`: runs `inspect` with the closure `|_| Ok(())` and
maps success to `true` and `UserDataTypeMismatch` to `false`. Any other
error hits the `unreachable!()` branch of the source, modelled as `none`
(a panic); `some b` means the call returns the boolean `b`. -/
def is (st : LuaState) (h T : Nat) : Option Bool :=
  match (inspect st h T (fun f => (f, none))).2 with
  | none => some true
  | some Error.userDataTypeMismatch => some false
  | some _ => none

/-- `AnyUserData::borrow`: runs `inspect` with the closure that performs
`cell.try_borrow()`, mapping a borrow failure to `UserDataBorrowError`.
Returns the resulting engine state and the error, if any. -/
def borrow (st : LuaState) (h T : Nat) : LuaState × Option Error :=
  inspect st h T (fun f =>
    match tryBorrow f with
    | some f2 => (f2, none)
    | none => (f, some Error.userDataBorrowError))

/-- `AnyUserData::borrow_mut`: runs `inspect` with the closure that
performs `cell.try_borrow_mut()`, mapping a borrow failure to
`UserDataBorrowMutError`. -/
def borrow_mut (st : LuaState) (h T : Nat) : LuaState × Option Error :=
  inspect st h T (fun f =>
    match tryBorrowMut f with
    | some f2 => (f2, none)
    | none => (f, some Error.userDataBorrowMutError))

/-- Release of the shared view returned by `borrow` (drop of the `Ref`). -/
def releaseShared (st : LuaState) (h : Nat) : LuaState :=
  setFlag st h (sharedRelease (st.borrowFlag h))

/-- Release of the exclusive view returned by `borrow_mut` (drop of the
`RefMut`). -/
def releaseExclusive (st : LuaState) (h : Nat) : LuaState :=
  setFlag st h (exclusiveRelease (st.borrowFlag h))

/-- `AnyUserData::get_metatable`: pushes the handle and reads its
metatable slot; a value without a metatable yields
`Err(UserDataTypeMismatch)`. -/
def get_metatable (st : LuaState) (h : Nat) : Except Error Nat :=
  match st.metatableOf h with
  | none => .error Error.userDataTypeMismatch
  | some mt => .ok mt

/-- `AnyUserData::equals`: `Ok(true)` on reference-identical handles;
otherwise fetch both metatables (each fetch propagating its error),
`Ok(false)` when they differ by reference; when they agree and declare
an `__eq` metamethod, return the result of calling that closure with
both handles verbatim; otherwise `Ok(false)`. -/
def equals (st : LuaState) (h other : Nat) : Except Error Bool :=
  if h = other then .ok true
  else
    match get_metatable st h with
    | .error e => .error e
    | .ok mt =>
      match get_metatable st other with
      | .error e => .error e
      | .ok mt2 =>
        if mt ≠ mt2 then .ok false
        else
          match st.eqEntry mt with
          | some f => f h other
          | none => .ok false

/-- The engine dialects distinguished by the `cfg` feature gates of the
source: `lua53`, `lua52`, `lua51` and `luajit`. -/
inductive Dialect where
  | lua51
  | lua52
  | lua53
  | luajit
  deriving DecidableEq, Repr, Fintype

/-- The `MetaMethod` enumeration: every overridable metamethod slot.
`IDiv` through `Shr` are gated on the `lua53` feature and `Pairs` /
`IPairs` on `lua53` or `lua52`; the enumeration here is the union over
all configurations, with availability tracked by
`MetaMethod.availableIn`. There is deliberately no variant for the
`__gc` slot. -/
inductive MetaMethod where
  | Add
  | Sub
  | Mul
  | Div
  | Mod
  | Pow
  | Unm
  | IDiv
  | BAnd
  | BOr
  | BXor
  | BNot
  | Shl
  | Shr
  | Concat
  | Len
  | Eq
  | Lt
  | Le
  | Index
  | NewIndex
  | Call
  | ToString
  | Pairs
  | IPairs
  deriving DecidableEq, Repr, Fintype

/-- Which variants exist under each dialect, mirroring the `cfg`
attributes on the enum: the bitwise and floor-division slots need
`lua53`; the iteration hooks need `lua53` or `lua52`. -/
def MetaMethod.availableIn (d : Dialect) : MetaMethod → Bool
  | .IDiv | .BAnd | .BOr | .BXor | .BNot | .Shl | .Shr =>
    decide (d = Dialect.lua53)
  | .Pairs | .IPairs =>
    decide (d = Dialect.lua53 ∨ d = Dialect.lua52)
  | _ => true

/-- `MetaMethod::name`: the canonical metatable key of each slot (the
source returns the byte string, here its ASCII spelling). -/
def MetaMethod.name : MetaMethod → String
  | .Add => "__add"
  | .Sub => "__sub"
  | .Mul => "__mul"
  | .Div => "__div"
  | .Mod => "__mod"
  | .Pow => "__pow"
  | .Unm => "__unm"
  | .IDiv => "__idiv"
  | .BAnd => "__band"
  | .BOr => "__bor"
  | .BXor => "__bxor"
  | .BNot => "__bnot"
  | .Shl => "__shl"
  | .Shr => "__shr"
  | .Concat => "__concat"
  | .Len => "__len"
  | .Eq => "__eq"
  | .Lt => "__lt"
  | .Le => "__le"
  | .Index => "__index"
  | .NewIndex => "__newindex"
  | .Call => "__call"
  | .ToString => "__tostring"
  | .Pairs => "__pairs"
  | .IPairs => "__ipairs"

/-- The engine's value model, as far as this layer observes it: nil,
booleans, integers, strings, references to engine-space objects, and
the one-element container that the Lua 5.1/5.2/LuaJIT user-value shim
allocates around the stored value (`t = {}; t[1] = v`). -/
inductive Value where
  | nil
  | boolean (b : Bool)
  | integer (n : Int)
  | str (s : String)
  | ref (r : Nat)
  | wrapped (v : Value)
  deriving DecidableEq, Repr

/-- `AnyUserData::set_user_value`. Modelled from the spec:
`lua_setuservalue` (ffi, not in src/) stores a value in the per-value
auxiliary slot, modelled as a map from value reference to stored value.
On `lua53` the value is stored directly; on the other dialects only a
table may be stored, so the source wraps the value in a fresh
one-element table (`t.raw_set(1, v)`), modelled by the `wrapped`
constructor. -/
def set_user_value (d : Dialect) (slot : Nat → Value) (h : Nat) (v : Value) :
    Nat → Value :=
  let stored := match d with
    | .lua53 => v
    | _ => Value.wrapped v
  fun x => if x = h then stored else slot x

/-- `AnyUserData::get_user_value`. Modelled from the spec:
`lua_getuservalue` (ffi, not in src/) reads the auxiliary slot. On
`lua53` the read value is returned directly; on the other dialects the
source casts it to a table (`Table::from_lua`, failing with a
conversion error when the slot does not hold the container) and returns
its element at index 1. -/
def get_user_value (d : Dialect) (slot : Nat → Value) (h : Nat) :
    Except Error Value :=
  match d with
  | .lua53 => .ok (slot h)
  | _ =>
    match slot h with
    | .wrapped v => .ok v
    | _ => .error Error.fromLuaConversionError

/-! Helper lemmas about `setFlag`, shared by the theorems below. -/

@[simp]
theorem setFlag_metatableOf (st : LuaState) (h : Nat) (f : BorrowFlag) :
    (setFlag st h f).metatableOf = st.metatableOf := rfl

@[simp]
theorem setFlag_typeTag (st : LuaState) (h : Nat) (f : BorrowFlag) :
    (setFlag st h f).typeTag = st.typeTag := rfl

@[simp]
theorem setFlag_eqEntry (st : LuaState) (h : Nat) (f : BorrowFlag) :
    (setFlag st h f).eqEntry = st.eqEntry := rfl

@[simp]
theorem setFlag_borrowFlag_self (st : LuaState) (h : Nat) (f : BorrowFlag) :
    (setFlag st h f).borrowFlag h = f := by
  simp [setFlag]

theorem setFlag_self (st : LuaState) (h : Nat) :
    setFlag st h (st.borrowFlag h) = st := by
  have hb : (fun x => if x = h then st.borrowFlag h else st.borrowFlag x)
      = st.borrowFlag := by
    funext x
    by_cases hx : x = h <;> simp [hx]
  cases st
  simp only [setFlag] at hb ⊢
  simp_all

/-- A concrete engine state used to witness the theorems: values 0 and 1
carry the metatable of type 0 (registry reference 10), which declares an
`__eq` closure; values 2 and 3 carry the metatable of type 1 (registry
reference 11), which declares none; values 4 and up have no metatable.
All borrow cells start free. -/
def exState : LuaState where
  metatableOf := fun h =>
    if h ≤ 1 then some 10 else if h ≤ 3 then some 11 else none
  typeTag := fun T => T + 10
  borrowFlag := fun _ => .free
  eqEntry := fun m => if m = 10 then some (fun _ _ => .ok true) else none

/-- `exState` with an exclusive borrow live on value 0. -/
def exStateExcl : LuaState := setFlag exState 0 .exclusive

/-- `exState` with one shared borrow live on value 0. -/
def exStateShared : LuaState := setFlag exState 0 (.shared 1)

/-- Claim C1: `equals` follows exactly the specified decision procedure —
reference-identical handles yield `Ok(true)` immediately; otherwise
reference-distinct metatables yield `Ok(false)`; a shared metatable with
a declared `__eq` operator yields the result of that operator verbatim; a
shared metatable without one yields `Ok(false)`; in particular, handles
of the same type with no equality operator are equal iff
reference-identical. (The branches comparing metatables presuppose both
handles have one; a missing metatable is the error case settled
separately for the implicit claim about `get_metatable`.) -/
theorem equals_decision (st : LuaState) (h other : Nat) :
    (h = other → equals st h other = .ok true) ∧
    (∀ m m2, h ≠ other → st.metatableOf h = some m →
      st.metatableOf other = some m2 → m ≠ m2 →
      equals st h other = .ok false) ∧
    (∀ m f, h ≠ other → st.metatableOf h = some m →
      st.metatableOf other = some m → st.eqEntry m = some f →
      equals st h other = f h other) ∧
    (∀ m, h ≠ other → st.metatableOf h = some m →
      st.metatableOf other = some m → st.eqEntry m = none →
      equals st h other = .ok false) ∧
    (∀ m, st.metatableOf h = some m → st.metatableOf other = some m →
      st.eqEntry m = none → (equals st h other = .ok true ↔ h = other)) := by
  refine ⟨?_, ?_, ?_, ?_, ?_⟩
  · intro heq
    simp [equals, heq]
  · intro m m2 hne hm hm2 hmm
    simp [equals, hne, get_metatable, hm, hm2, hmm]
  · intro m f hne hm hm2 hf
    simp [equals, hne, get_metatable, hm, hm2, hf]
  · intro m hne hm hm2 he
    simp [equals, hne, get_metatable, hm, hm2, he]
  · intro m hm hm2 he
    by_cases heq : h = other
    · simp [equals, heq]
    · simp [equals, heq, get_metatable, hm, hm2, he]

/-- Witness for C1: in `exState`, a handle equals itself; handles with
reference-distinct metatables are unequal; handles sharing the `__eq`
metatable return the result of the closure (`Ok(true)` here); handles sharing
the metatable without `__eq` are unequal. -/
theorem equals_decision_witness :
    equals exState 0 0 = .ok true ∧
    equals exState 0 2 = .ok false ∧
    equals exState 0 1 = .ok true ∧
    equals exState 2 3 = .ok false := by
  refine ⟨(equals_decision exState 0 0).1 rfl, ?_, ?_, ?_⟩
  · exact (equals_decision exState 0 2).2.1 10 11 (by decide) rfl rfl (by decide)
  · have hc := (equals_decision exState 0 1).2.2.1 10 (fun _ _ => .ok true)
      (by decide) rfl rfl rfl
    simpa using hc
  · exact (equals_decision exState 2 3).2.2.2.1 11 (by decide) rfl rfl rfl

/-- Claim C9: for reference-distinct handles, a missing metatable on
either side makes `equals` return the `UserDataTypeMismatch` error
rather than `Ok(false)`; only the reference-identity short-circuit runs
before the metatable fetch, so a metatable-less handle compared with
itself still yields `Ok(true)`. -/
theorem equals_no_metatable (st : LuaState) (h other : Nat) :
    (h ≠ other → (st.metatableOf h = none ∨ st.metatableOf other = none) →
      equals st h other = .error Error.userDataTypeMismatch) ∧
    equals st h h = .ok true := by
  constructor
  · intro hne hmiss
    rcases hmiss with hm | hm
    · simp [equals, hne, get_metatable, hm]
    · cases hm2 : st.metatableOf h with
      | none => simp [equals, hne, get_metatable, hm2]
      | some mt => simp [equals, hne, get_metatable, hm2, hm]
  · simp [equals]

/-- Witness for C9: values 4 and 5 of `exState` have no metatable;
comparing them errors with `UserDataTypeMismatch`, while comparing
value 4 with itself yields `Ok(true)`. -/
theorem equals_no_metatable_witness :
    equals exState 4 5 = .error Error.userDataTypeMismatch ∧
    equals exState 4 4 = .ok true :=
  ⟨(equals_no_metatable exState 4 5).1 (by decide) (Or.inl rfl),
   (equals_no_metatable exState 4 4).2⟩

/-- Claim C2: on a handle carrying the tag of a type U distinct from the
requested type T (distinct types have distinct tags, per the tag
uniqueness invariant of the registry), `is` returns `false` and both
`borrow` and `borrow_mut` fail with `UserDataTypeMismatch`, leaving the
state untouched — never a borrow-conflict error and never success. All
three operations are definitionally thin wrappers over the single
`inspect` primitive, which rejects the access before the cell is ever
consulted. -/
theorem typed_access_mismatch (st : LuaState) (h T U : Nat)
    (hU : st.metatableOf h = some (st.typeTag U))
    (hne : st.typeTag U ≠ st.typeTag T) :
    is st h T = some false ∧
    borrow st h T = (st, some Error.userDataTypeMismatch) ∧
    borrow_mut st h T = (st, some Error.userDataTypeMismatch) := by
  refine ⟨?_, ?_, ?_⟩ <;> simp [is, borrow, borrow_mut, inspect, hU, hne]

/-- Witness for C2: value 0 of `exState` holds a type-0 instance, so
requesting type 1 yields `false` from `is` and `UserDataTypeMismatch`
from both borrow operations. -/
theorem typed_access_mismatch_witness :
    is exState 0 1 = some false ∧
    borrow exState 0 1 = (exState, some Error.userDataTypeMismatch) ∧
    borrow_mut exState 0 1 = (exState, some Error.userDataTypeMismatch) :=
  typed_access_mismatch exState 0 1 0 rfl (by decide)

/-- Claim C4: `is` is total — it always returns a boolean (`some`), with
a missing metatable and a tag mismatch both resolving to `false`, and it
returns `true` exactly when the metatable of the handle is the
registered tag of the requested type, compared by raw identity. -/
theorem is_total_characterization (st : LuaState) (h T : Nat) :
    is st h T = some (decide (st.metatableOf h = some (st.typeTag T))) := by
  unfold is inspect
  cases hm : st.metatableOf h with
  | none => simp [hm]
  | some mt =>
    by_cases ht : mt = st.typeTag T
    · simp [hm, ht]
    · simp [hm, ht]

/-- Claim C10: the `unreachable!()` branch of `is` is valid — when the
closure handed to `inspect` always succeeds, `inspect` either succeeds
or fails with `UserDataTypeMismatch`, never any other error. The
per-type tag lookup (`lua.userdata_metatable::<T>()`, modelled from the
spec as the total, idempotent cache lookup `typeTag`) surfaces no error
of its own, so `is` never panics. -/
theorem inspect_ok_closure_type_mismatch_only (st : LuaState) (h T : Nat)
    (func : BorrowFlag → BorrowFlag × Option Error)
    (hok : ∀ f, (func f).2 = none) :
    (inspect st h T func).2 = none ∨
    (inspect st h T func).2 = some Error.userDataTypeMismatch := by
  unfold inspect
  cases st.metatableOf h with
  | none => exact Or.inr rfl
  | some mt =>
    by_cases ht : mt = st.typeTag T
    · exact Or.inl (by simp [ht, hok])
    · exact Or.inr (by simp [ht])

/-- Witness for C10: the always-succeeding closure used by `is`, run
through `inspect` on a concrete state. -/
theorem inspect_ok_closure_type_mismatch_only_witness :
    (inspect exState 0 0 (fun f => (f, none))).2 = none ∨
    (inspect exState 0 0 (fun f => (f, none))).2
      = some Error.userDataTypeMismatch :=
  inspect_ok_closure_type_mismatch_only exState 0 0 (fun f => (f, none))
    (fun _ => rfl)

/-- Claim C3: on a handle of type T, while an exclusive view is live a
nested `borrow` fails with `UserDataBorrowError` and a nested
`borrow_mut` fails with `UserDataBorrowMutError`; while a shared view is
live a nested `borrow_mut` fails with `UserDataBorrowMutError`; and each
failed acquisition returns the engine state unchanged, so subsequent
acquisitions behave as if the failure had never happened. -/
theorem nested_borrow_conflict (st : LuaState) (h T : Nat)
    (hmt : st.metatableOf h = some (st.typeTag T)) :
    (st.borrowFlag h = .exclusive →
      borrow st h T = (st, some Error.userDataBorrowError) ∧
      borrow_mut st h T = (st, some Error.userDataBorrowMutError)) ∧
    (∀ n, st.borrowFlag h = .shared (n + 1) →
      borrow_mut st h T = (st, some Error.userDataBorrowMutError)) := by
  constructor
  · intro hx
    constructor
    · have h1 : borrow st h T
          = (setFlag st h (st.borrowFlag h), some Error.userDataBorrowError) := by
        simp [borrow, inspect, hmt, hx, tryBorrow]
      rw [setFlag_self] at h1
      exact h1
    · have h1 : borrow_mut st h T
          = (setFlag st h (st.borrowFlag h), some Error.userDataBorrowMutError) := by
        simp [borrow_mut, inspect, hmt, hx, tryBorrowMut]
      rw [setFlag_self] at h1
      exact h1
  · intro n hx
    have h1 : borrow_mut st h T
        = (setFlag st h (st.borrowFlag h), some Error.userDataBorrowMutError) := by
      simp [borrow_mut, inspect, hmt, hx, tryBorrowMut]
    rw [setFlag_self] at h1
    exact h1

/-- Witness for C3: with an exclusive borrow live on value 0, nested
`borrow` and `borrow_mut` fail with the two conflict errors; with a
shared borrow live, nested `borrow_mut` fails; the state is returned
unchanged in all three cases. -/
theorem nested_borrow_conflict_witness :
    borrow exStateExcl 0 0 = (exStateExcl, some Error.userDataBorrowError) ∧
    borrow_mut exStateExcl 0 0
      = (exStateExcl, some Error.userDataBorrowMutError) ∧
    borrow_mut exStateShared 0 0
      = (exStateShared, some Error.userDataBorrowMutError) := by
  have h1 := (nested_borrow_conflict exStateExcl 0 0 rfl).1 rfl
  have h2 := (nested_borrow_conflict exStateShared 0 0 rfl).2 0 rfl
  exact ⟨h1.1, h1.2, h2⟩

/-- Claim C6: on a handle of type T with a free cell, `is` returns
`true`; `borrow` succeeds; releasing the shared view restores the cell
to the free state; and a subsequent `borrow_mut` succeeds — a fully
released borrow produces no false-positive conflicts. -/
theorem borrow_release_then_mut (st : LuaState) (h T : Nat)
    (hmt : st.metatableOf h = some (st.typeTag T))
    (hfree : st.borrowFlag h = .free) :
    is st h T = some true ∧
    (borrow st h T).2 = none ∧
    (releaseShared (borrow st h T).1 h).borrowFlag h = .free ∧
    (borrow_mut (releaseShared (borrow st h T).1 h) h T).2 = none := by
  have hbor : borrow st h T = (setFlag st h (.shared 1), none) := by
    simp [borrow, inspect, hmt, hfree, tryBorrow]
  have hrel : (releaseShared (setFlag st h (.shared 1)) h).borrowFlag h
      = BorrowFlag.free := by
    simp [releaseShared, sharedRelease]
  refine ⟨?_, ?_, ?_, ?_⟩
  · simp [is, inspect, hmt]
  · simp [hbor]
  · rw [hbor]
    exact hrel
  · rw [hbor]
    simp [borrow_mut, inspect, releaseShared, sharedRelease, hmt, tryBorrowMut]

/-- Witness for C6: borrow value 0 of `exState` as type 0, release, then
borrow mutably. -/
theorem borrow_release_then_mut_witness :
    is exState 0 0 = some true ∧
    (borrow exState 0 0).2 = none ∧
    (releaseShared (borrow exState 0 0).1 0).borrowFlag 0 = .free ∧
    (borrow_mut (releaseShared (borrow exState 0 0).1 0) 0 0).2 = none :=
  borrow_release_then_mut exState 0 0 rfl rfl

/-- Claim C5: `set_user_value` followed by `get_user_value` on the same
handle returns the stored value, for every dialect and every value of
the model (nil included); on the dialects whose user-value slot only
admits a table, the one-element-container wrapping and unwrapping cancel
out, so the round trip is invisible to the caller. -/
theorem user_value_roundtrip (d : Dialect) (slot : Nat → Value) (h : Nat)
    (v : Value) :
    get_user_value d (set_user_value d slot h v) h = .ok v := by
  cases d <;> simp [set_user_value, get_user_value]

/-- Injectivity of the metamethod-name table, checked by enumeration of
all variant pairs. -/
theorem metamethod_name_inj_aux :
    ∀ m1 m2 : MetaMethod, MetaMethod.name m1 = MetaMethod.name m2 → m1 = m2 := by
  decide

/-- Claim C7: the operator-catalog name function is total (it is a Lean
function defined by a complete match, so every variant — in particular
every variant available under the configured dialect — has exactly one
name) and injective: two available variants with the same canonical name
are the same variant. -/
theorem metamethod_name_total_injective (d : Dialect) (m1 m2 : MetaMethod)
    (_h1 : MetaMethod.availableIn d m1 = true)
    (_h2 : MetaMethod.availableIn d m2 = true)
    (hn : MetaMethod.name m1 = MetaMethod.name m2) : m1 = m2 :=
  metamethod_name_inj_aux m1 m2 hn

/-- Witness for C7 at a concrete dialect and variant pair. -/
theorem metamethod_name_total_injective_witness :
    MetaMethod.Add = MetaMethod.Add :=
  metamethod_name_total_injective Dialect.lua53 MetaMethod.Add MetaMethod.Add
    rfl rfl rfl

/-- Claim C8: the catalog exposes no finalization hook — no `MetaMethod`
variant has the canonical name `__gc`, so no meta registration (all of
which are keyed by `MetaMethod.name`) can bind a closure to the
finalization metamethod. -/
theorem no_gc_in_catalog :
    ∀ m : MetaMethod, decide (MetaMethod.name m = "__gc") = false := by
  decide

end Mlua
